import Mathlib

/-!
Shallow embedding of the narwhals deferred-expression core
(`src_shiny_app/narwhals/expr.py`): Expression Nodes wrapping a deferred
call from a compliant namespace to a compliant expression, the operand
dispatch helper `extract_compliant`, eagerly-validated constructors
(`fill_null`, `is_in`, `replace_strict`, the horizontal aggregations,
`concat_str`), and the `When`/`Then` conditional builder.  Backends are
abstracted as a structure of operations over carrier types `E` (compliant
expression), `S` (compliant series) and `W` (backend when-builder); a
concrete conforming column backend is supplied for evaluation tests.
-/

namespace Narwhals

/-- Scalar values appearing in columns and as literal operands. -/
inductive Val : Type where
  | int (i : Int)
  | str (s : String)
  | bool (b : Bool)
  deriving DecidableEq, Repr

/-- Unified data types (only the constructors the claims exercise). -/
inductive DType : Type where
  | int64
  | float64
  | string
  | boolean
  deriving DecidableEq, Repr

/-- Python exceptions raised by eager argument validation. -/
inductive NwError : Type where
  | valueError (msg : String)
  | typeError (msg : String)
  | notImplementedError (msg : String)
  deriving DecidableEq, Repr

/-- A single variadic argument: either one item or an iterable of items
(`IntoExpr | Iterable[IntoExpr]` in the source signatures). -/
inductive VarArg (α : Type) : Type where
  | one (a : α)
  | many (l : List α)

/-- Modelled from the spec: `narwhals.utils.flatten` is imported by
`expr.py` but its module is not under `src/`.  Per the spec, variadic
constructors accept items or nested iterables of items and flatten them
("column-by-name (variadic, flattening nested iterables of names)",
"flattened if passed as nested iterables"). -/
def flatten {α : Type} : List (VarArg α) → List α
  | [] => []
  | .one a :: rest => a :: flatten rest
  | .many l :: rest => l ++ flatten rest

/-- The `old` argument of `replace_strict`: a mapping or a sequence. -/
inductive OldArg : Type where
  | mapping (ps : List (Val × Val))
  | seq (l : List Val)

/-- The result of `extract_compliant`: a compliant expression (from an
`Expr`), a compliant series (from a `Series`), or the operand unchanged
(scalar literal). -/
inductive Resolved (E S : Type) : Type where
  | comp (x : E)
  | ser (s : S)
  | val (v : Val)

/-- The Compliant Namespace protocol: the operation set a backend adapter
supplies at evaluation time (spec section 6).  `E` is the backend's
compliant-expression carrier, `S` its compliant-series carrier, `W` the
intermediate object returned by the backend's `when`. -/
structure Namespace (E S W : Type) : Type where
  col : List String → E
  «alias» : E → String → E
  cast : E → DType → E
  eq : E → Resolved E S → E
  ne : E → Resolved E S → E
  lt : E → Resolved E S → E
  le : E → Resolved E S → E
  gt : E → Resolved E S → E
  ge : E → Resolved E S → E
  add : E → Resolved E S → E
  fill_null : E → Option Val → Option String → Option Int → E
  is_in : E → List Val → E
  replace_strict : E → OldArg → List Val → Option DType → E
  sum_horizontal : List (Resolved E S) → E
  min_horizontal : List (Resolved E S) → E
  max_horizontal : List (Resolved E S) → E
  any_horizontal : List (Resolved E S) → E
  all_horizontal : List (Resolved E S) → E
  mean_horizontal : List (Resolved E S) → E
  concat_str : List (Resolved E S) → List (Resolved E S) → String → Bool → E
  when : List (Resolved E S) → W
  whenThen : W → Resolved E S → E
  otherwise : E → Resolved E S → E

/-- An Expression Node: wraps exactly one value, the deferred call from a
compliant namespace to a compliant expression (`Expr.__init__` stores
`self._call = call`). -/
structure Expr (E S W : Type) : Type where
  _call : Namespace E S W → E

/-- Modelled from the spec: `narwhals.series.Series` is not under `src/`;
`extract_compliant` only reads its `_compliant_series` attribute — a
realized single-column container holding its underlying compliant
series. -/
structure Series (S : Type) : Type where
  _compliant_series : S

/-- An arbitrary operand (`Any` at the binary/n-ary operation sites):
an Expression Node, a realized Series, or a scalar literal. -/
inductive Operand (E S W : Type) : Type where
  | expr (e : Expr E S W)
  | series (s : Series S)
  | scalar (v : Val)

/-- The dispatch helper (`extract_compliant(expr, other)` in the source;
its first parameter is in fact passed the live namespace `plx` at every
call site): an `Expr` is resolved by invoking its stored call, a `Series`
by extracting its compliant series, anything else is returned unchanged. -/
def extract_compliant {E S W : Type} (plx : Namespace E S W) :
    Operand E S W → Resolved E S
  | .expr e => .comp (e._call plx)
  | .series s => .ser s._compliant_series
  | .scalar v => .val v

/-- `Expr.alias`: returns `self.__class__(lambda plx: self._call(plx).alias(name))`. -/
def Expr.alias {E S W : Type} (self : Expr E S W) (name : String) : Expr E S W :=
  ⟨fun plx => plx.«alias» (self._call plx) name⟩

/-- `Expr.cast`: returns `self.__class__(lambda plx: self._call(plx).cast(dtype))`. -/
def Expr.cast {E S W : Type} (self : Expr E S W) (dtype : DType) : Expr E S W :=
  ⟨fun plx => plx.cast (self._call plx) dtype⟩

/-- `Expr.__eq__`: a new node delegating the comparison to the backend
after resolving the operand through the dispatch helper. -/
def Expr.__eq__ {E S W : Type} (self : Expr E S W) (other : Operand E S W) :
    Expr E S W :=
  ⟨fun plx => plx.eq (self._call plx) (extract_compliant plx other)⟩

/-- `Expr.__ne__`. -/
def Expr.__ne__ {E S W : Type} (self : Expr E S W) (other : Operand E S W) :
    Expr E S W :=
  ⟨fun plx => plx.ne (self._call plx) (extract_compliant plx other)⟩

/-- `Expr.__lt__`. -/
def Expr.__lt__ {E S W : Type} (self : Expr E S W) (other : Operand E S W) :
    Expr E S W :=
  ⟨fun plx => plx.lt (self._call plx) (extract_compliant plx other)⟩

/-- `Expr.__le__`. -/
def Expr.__le__ {E S W : Type} (self : Expr E S W) (other : Operand E S W) :
    Expr E S W :=
  ⟨fun plx => plx.le (self._call plx) (extract_compliant plx other)⟩

/-- `Expr.__gt__`. -/
def Expr.__gt__ {E S W : Type} (self : Expr E S W) (other : Operand E S W) :
    Expr E S W :=
  ⟨fun plx => plx.gt (self._call plx) (extract_compliant plx other)⟩

/-- `Expr.__ge__`. -/
def Expr.__ge__ {E S W : Type} (self : Expr E S W) (other : Operand E S W) :
    Expr E S W :=
  ⟨fun plx => plx.ge (self._call plx) (extract_compliant plx other)⟩

/-- `Expr.__add__`. -/
def Expr.__add__ {E S W : Type} (self : Expr E S W) (other : Operand E S W) :
    Expr E S W :=
  ⟨fun plx => plx.add (self._call plx) (extract_compliant plx other)⟩

/-- `Expr.fill_null(value, strategy, limit)`: eager validation, then a
deferred node.  Mirrors the source's three checks in order:
both given, neither given, strategy outside the supported set. -/
def Expr.fill_null {E S W : Type} (self : Expr E S W) (value : Option Val)
    (strategy : Option String) (limit : Option Int) :
    Except NwError (Expr E S W) :=
  if value.isSome && strategy.isSome then
    .error (.valueError "cannot specify both `value` and `strategy`")
  else if value.isNone && strategy.isNone then
    .error (.valueError "must specify either a fill `value` or `strategy`")
  else if strategy.isSome && !(strategy == some "forward" || strategy == some "backward") then
    .error (.valueError ("strategy not supported: " ++ strategy.getD ""))
  else
    .ok ⟨fun plx => plx.fill_null (self._call plx) value strategy limit⟩

/-- An arbitrary Python object passed to `Expr.is_in`: strings, bytes and
lists are iterable; an Expression Node or a bare scalar is not
(`Expr` defines no `__iter__`). -/
inductive PyObj (E S W : Type) : Type where
  | pstr (s : String)
  | pbytes (b : List Nat)
  | plist (l : List Val)
  | pexpr (e : Expr E S W)
  | pscalar (v : Val)

/-- `isinstance(other, Iterable)`. -/
def PyObj.isIterable {E S W : Type} : PyObj E S W → Bool
  | .pstr _ => true
  | .pbytes _ => true
  | .plist _ => true
  | .pexpr _ => false
  | .pscalar _ => false

/-- `isinstance(other, (str, bytes))`. -/
def PyObj.isStrOrBytes {E S W : Type} : PyObj E S W → Bool
  | .pstr _ => true
  | .pbytes _ => true
  | _ => false

/-- The elements an iterable operand yields. -/
def PyObj.iterVals {E S W : Type} : PyObj E S W → List Val
  | .plist l => l
  | _ => []

/-- `Expr.is_in(other)`: accepts a non-string iterable, otherwise raises
`NotImplementedError` eagerly. -/
def Expr.is_in {E S W : Type} (self : Expr E S W) (other : PyObj E S W) :
    Except NwError (Expr E S W) :=
  if other.isIterable && !other.isStrOrBytes then
    .ok ⟨fun plx => plx.is_in (self._call plx) other.iterVals⟩
  else
    .error (.notImplementedError "Narwhals `is_in` doesn't accept expressions as an argument, as opposed to Polars. You should provide an iterable instead.")

/-- `Expr.replace_strict(old, new, return_dtype)`: when `new` is omitted,
`old` must be a mapping and is unpacked into parallel key/value lists at
construction time; otherwise the arguments pass through to the deferred
call unchanged. -/
def Expr.replace_strict {E S W : Type} (self : Expr E S W) (old : OldArg)
    (new : Option (List Val)) (return_dtype : Option DType) :
    Except NwError (Expr E S W) :=
  match new with
  | none =>
    match old with
    | .mapping ps =>
      .ok ⟨fun plx =>
        plx.replace_strict (self._call plx) (.seq (ps.map Prod.fst))
          (ps.map Prod.snd) return_dtype⟩
    | .seq _ =>
      .error (.typeError "`new` argument is required if `old` argument is not a Mapping type")
  | some nl =>
    .ok ⟨fun plx => plx.replace_strict (self._call plx) old nl return_dtype⟩

/-- Top-level `col(*names)`. -/
def col {E S W : Type} (names : List (VarArg String)) : Expr E S W :=
  ⟨fun plx => plx.col (flatten names)⟩

/-- `sum_horizontal(*exprs)`: raises eagerly on an empty argument list,
otherwise defers the horizontal aggregation. -/
def sum_horizontal {E S W : Type} (exprs : List (VarArg (Operand E S W))) :
    Except NwError (Expr E S W) :=
  if exprs.isEmpty then
    .error (.valueError "At least one expression must be passed to `sum_horizontal`")
  else
    .ok ⟨fun plx => plx.sum_horizontal ((flatten exprs).map (extract_compliant plx))⟩

/-- `min_horizontal(*exprs)`. -/
def min_horizontal {E S W : Type} (exprs : List (VarArg (Operand E S W))) :
    Except NwError (Expr E S W) :=
  if exprs.isEmpty then
    .error (.valueError "At least one expression must be passed to `min_horizontal`")
  else
    .ok ⟨fun plx => plx.min_horizontal ((flatten exprs).map (extract_compliant plx))⟩

/-- `max_horizontal(*exprs)`. -/
def max_horizontal {E S W : Type} (exprs : List (VarArg (Operand E S W))) :
    Except NwError (Expr E S W) :=
  if exprs.isEmpty then
    .error (.valueError "At least one expression must be passed to `max_horizontal`")
  else
    .ok ⟨fun plx => plx.max_horizontal ((flatten exprs).map (extract_compliant plx))⟩

/-- `any_horizontal(*exprs)`. -/
def any_horizontal {E S W : Type} (exprs : List (VarArg (Operand E S W))) :
    Except NwError (Expr E S W) :=
  if exprs.isEmpty then
    .error (.valueError "At least one expression must be passed to `any_horizontal`")
  else
    .ok ⟨fun plx => plx.any_horizontal ((flatten exprs).map (extract_compliant plx))⟩

/-- `all_horizontal(*exprs)`. -/
def all_horizontal {E S W : Type} (exprs : List (VarArg (Operand E S W))) :
    Except NwError (Expr E S W) :=
  if exprs.isEmpty then
    .error (.valueError "At least one expression must be passed to `all_horizontal`")
  else
    .ok ⟨fun plx => plx.all_horizontal ((flatten exprs).map (extract_compliant plx))⟩

/-- `mean_horizontal(*exprs)`. -/
def mean_horizontal {E S W : Type} (exprs : List (VarArg (Operand E S W))) :
    Except NwError (Expr E S W) :=
  if exprs.isEmpty then
    .error (.valueError "At least one expression must be passed to `mean_horizontal`")
  else
    .ok ⟨fun plx => plx.mean_horizontal ((flatten exprs).map (extract_compliant plx))⟩

/-- `concat_str(exprs, *more_exprs, separator, ignore_nulls)`: the source
body performs no validation and contains no raise — it directly returns
the deferred node (embedded through `Except` like the other possibly
raising constructors, hence always `.ok`). -/
def concat_str {E S W : Type} (exprs : VarArg (Operand E S W))
    (more_exprs : List (Operand E S W)) (separator : String)
    (ignore_nulls : Bool) : Except NwError (Expr E S W) :=
  .ok ⟨fun plx =>
    plx.concat_str ((flatten [exprs]).map (extract_compliant plx))
      (more_exprs.map (extract_compliant plx)) separator ignore_nulls⟩

/-- The `When` builder: holds the flattened predicate sequence. -/
structure When (E S W : Type) : Type where
  _predicates : List (Operand E S W)

/-- `When._extract_predicates(plx)`. -/
def When._extract_predicates {E S W : Type} (self : When E S W)
    (plx : Namespace E S W) : List (Resolved E S) :=
  self._predicates.map (extract_compliant plx)

/-- A `Then` node: a subclass of `Expr` in the source, itself holding a
deferred call and usable directly as an Expression Node. -/
structure Then (E S W : Type) : Type where
  _call : Namespace E S W → E

/-- The `Expr` view of a `Then` node (subclass coercion). -/
def Then.toExpr {E S W : Type} (self : Then E S W) : Expr E S W :=
  ⟨self._call⟩

/-- `When.then(value)`: transitions to a `Then` whose deferred call builds
`plx.when(*predicates).then(value)` with operands resolved at evaluation
time. -/
def When.«then» {E S W : Type} (self : When E S W) (value : Operand E S W) :
    Then E S W :=
  ⟨fun plx =>
    plx.whenThen (plx.when (self._extract_predicates plx))
      (extract_compliant plx value)⟩

/-- `Then.otherwise(value)`: finalizes into a plain Expression Node whose
deferred call appends the fallback. -/
def Then.otherwise {E S W : Type} (self : Then E S W) (value : Operand E S W) :
    Expr E S W :=
  ⟨fun plx => plx.otherwise (self._call plx) (extract_compliant plx value)⟩

/-- Top-level `when(*predicates)`: enters the builder with the flattened
predicates. -/
def when {E S W : Type} (predicates : List (VarArg (Operand E S W))) :
    When E S W :=
  ⟨flatten predicates⟩

/-! ### A concrete conforming backend

Backends are out of scope of the module under study (external
collaborators implementing the Compliant Protocol); this toy columnar
backend exists so that deferred nodes can be evaluated on concrete data.
A compliant expression is a named column of optional values; when/then
results additionally carry the predicate mask so that `otherwise` can
fill exactly the unmatched rows. -/

/-- A compliant expression of the toy backend. -/
structure Col : Type where
  name : String
  vals : List (Option Val)
  whenMask : Option (List (Option Bool))
  deriving DecidableEq, Repr

/-- The toy backend's when-builder carrier: the combined predicate mask. -/
abbrev MaskW : Type := List (Option Bool)

/-- A dataframe of the toy backend: named columns of optional values. -/
abbrev DataFrame : Type := List (String × List (Option Val))

def valEq (a b : Val) : Option Val := some (.bool (a == b))

def valNe (a b : Val) : Option Val := some (.bool (a != b))

def valLt : Val → Val → Option Val
  | .int a, .int b => some (.bool (decide (a < b)))
  | .str a, .str b => some (.bool (decide (a < b)))
  | _, _ => none

def valLe : Val → Val → Option Val
  | .int a, .int b => some (.bool (decide (a ≤ b)))
  | .str a, .str b => some (.bool (decide (a ≤ b)))
  | _, _ => none

def valGt : Val → Val → Option Val
  | .int a, .int b => some (.bool (decide (b < a)))
  | .str a, .str b => some (.bool (decide (b < a)))
  | _, _ => none

def valGe : Val → Val → Option Val
  | .int a, .int b => some (.bool (decide (b ≤ a)))
  | .str a, .str b => some (.bool (decide (b ≤ a)))
  | _, _ => none

def valAdd : Val → Val → Option Val
  | .int a, .int b => some (.int (a + b))
  | .str a, .str b => some (.str (a ++ b))
  | _, _ => none

def valMin : Val → Val → Option Val
  | .int a, .int b => some (.int (min a b))
  | _, _ => none

def valMax : Val → Val → Option Val
  | .int a, .int b => some (.int (max a b))
  | _, _ => none

def valAnd : Val → Val → Option Val
  | .bool a, .bool b => some (.bool (a && b))
  | _, _ => none

def valOr : Val → Val → Option Val
  | .bool a, .bool b => some (.bool (a || b))
  | _, _ => none

def valToStr : Val → String
  | .int i => toString i
  | .str s => s
  | .bool b => toString b

def castVal : DType → Val → Option Val
  | .string, v => some (.str (valToStr v))
  | .int64, .int i => some (.int i)
  | .int64, .bool b => some (.int (if b then 1 else 0))
  | .boolean, .bool b => some (.bool b)
  | _, _ => none

/-- View a resolved operand as a toy column (scalars only occur in
positions the tests do not exercise broadcast for). -/
def resolvedCol : Resolved Col Col → Col
  | .comp c => c
  | .ser s => s
  | .val v => ⟨"literal", [some v], none⟩

/-- Elementwise binary operation with null propagation; scalars broadcast. -/
def colBin (f : Val → Val → Option Val) (c : Col) (r : Resolved Col Col) : Col :=
  match r with
  | .val v => ⟨c.name, c.vals.map (fun ov => ov.bind (fun a => f a v)), none⟩
  | .comp d =>
    ⟨c.name,
      List.zipWith
        (fun ov ow =>
          match ov, ow with
          | some a, some b => f a b
          | _, _ => none)
        c.vals d.vals,
      none⟩
  | .ser s =>
    ⟨c.name,
      List.zipWith
        (fun ov ow =>
          match ov, ow with
          | some a, some b => f a b
          | _, _ => none)
        c.vals s.vals,
      none⟩

/-- Row-wise fold of several columns with null propagation. -/
def combineH (f : Val → Val → Option Val) (rs : List (Resolved Col Col)) : Col :=
  match rs.map resolvedCol with
  | [] => ⟨"", [], none⟩
  | c :: cs => cs.foldl (fun acc d => colBin f acc (.comp d)) c

/-- Forward fill carrying the last seen non-null value. -/
def ffill : Option Val → List (Option Val) → List (Option Val)
  | _, [] => []
  | _, some v :: rest => some v :: ffill (some v) rest
  | last, none :: rest => last :: ffill last rest

def toyFill (c : Col) (value : Option Val) (strategy : Option String) : Col :=
  match value with
  | some v => ⟨c.name, c.vals.map (fun ov => some (ov.getD v)), none⟩
  | none =>
    match strategy with
    | some "forward" => ⟨c.name, ffill none c.vals, none⟩
    | some "backward" => ⟨c.name, (ffill none c.vals.reverse).reverse, none⟩
    | _ => c

def predBool : Option Val → Option Bool
  | some (.bool b) => some b
  | _ => none

def andMask (m1 m2 : List (Option Bool)) : List (Option Bool) :=
  List.zipWith
    (fun a b =>
      match a, b with
      | some x, some y => some (x && y)
      | _, _ => none)
    m1 m2

def toyWhen (preds : List (Resolved Col Col)) : MaskW :=
  match preds.map (fun r => (resolvedCol r).vals.map predBool) with
  | [] => []
  | m :: ms => ms.foldl andMask m

def toyWhenThen (mask : MaskW) (v : Resolved Col Col) : Col :=
  match v with
  | .val x =>
    ⟨"literal", mask.map (fun ob => if ob == some true then some x else none),
      some mask⟩
  | .comp d =>
    ⟨d.name,
      List.zipWith (fun ob ov => if ob == some true then ov else none) mask d.vals,
      some mask⟩
  | .ser s =>
    ⟨s.name,
      List.zipWith (fun ob ov => if ob == some true then ov else none) mask s.vals,
      some mask⟩

def toyOtherwise (c : Col) (v : Resolved Col Col) : Col :=
  match c.whenMask with
  | some mask =>
    match v with
    | .val x =>
      ⟨c.name,
        List.zipWith (fun ob ov => if ob == some true then ov else some x) mask c.vals,
        none⟩
    | .comp d =>
      ⟨c.name,
        List.zipWith (fun p fv => if p.1 == some true then p.2 else fv)
          (mask.zip c.vals) d.vals,
        none⟩
    | .ser s =>
      ⟨c.name,
        List.zipWith (fun p fv => if p.1 == some true then p.2 else fv)
          (mask.zip c.vals) s.vals,
        none⟩
  | none => c

/-- Row-wise string concatenation with null propagation (or null
skipping when `ignore_nulls`). -/
def rowConcat (sep : String) (ignore_nulls : Bool) (cells : List (Option Val)) :
    Option Val :=
  if ignore_nulls then
    some (.str (String.intercalate sep ((cells.filterMap id).map valToStr)))
  else if cells.any (fun cell => cell.isNone) then
    none
  else
    some (.str (String.intercalate sep ((cells.filterMap id).map valToStr)))

def toyConcatStr (exprsL more : List (Resolved Col Col)) (sep : String)
    (ignore_nulls : Bool) : Col :=
  ⟨"literal",
    (((exprsL ++ more).map resolvedCol).map Col.vals).transpose.map
      (rowConcat sep ignore_nulls),
    none⟩

def toyMean (rs : List (Resolved Col Col)) : Col :=
  let c := combineH valAdd rs
  let n : Int := Int.ofNat rs.length
  ⟨c.name,
    c.vals.map (fun ov =>
      ov.bind (fun v =>
        match v with
        | .int i => some (.int (i / n))
        | _ => none)),
    none⟩

def toyReplaceStrict (c : Col) (old : OldArg) (new : List Val) : Col :=
  match old with
  | .mapping ps => ⟨c.name, c.vals.map (fun ov => ov.bind (fun v => List.lookup v ps)), none⟩
  | .seq ol => ⟨c.name, c.vals.map (fun ov => ov.bind (fun v => List.lookup v (ol.zip new))), none⟩

/-- The toy backend's compliant namespace over a fixed dataframe. -/
def toyNs (df : DataFrame) : Namespace Col Col MaskW where
  col := fun names =>
    match names with
    | n :: _ => ⟨n, (df.lookup n).getD [], none⟩
    | [] => ⟨"", [], none⟩
  «alias» := fun c n => ⟨n, c.vals, c.whenMask⟩
  cast := fun c dtype => ⟨c.name, c.vals.map (fun ov => ov.bind (castVal dtype)), none⟩
  eq := colBin valEq
  ne := colBin valNe
  lt := colBin valLt
  le := colBin valLe
  gt := colBin valGt
  ge := colBin valGe
  add := colBin valAdd
  fill_null := fun c value strategy _ => toyFill c value strategy
  is_in := fun c l => ⟨c.name, c.vals.map (fun ov => ov.map (fun v => .bool (l.contains v))), none⟩
  replace_strict := fun c old new _ => toyReplaceStrict c old new
  sum_horizontal := combineH valAdd
  min_horizontal := combineH valMin
  max_horizontal := combineH valMax
  any_horizontal := combineH valOr
  all_horizontal := combineH valAnd
  mean_horizontal := toyMean
  concat_str := toyConcatStr
  when := toyWhen
  whenThen := toyWhenThen
  otherwise := toyOtherwise

/-- The three-row dataframe of the spec's conditional example: column
`a` holds `[1, 2, 3]`. -/
def exDf3 : DataFrame := [("a", [some (.int 1), some (.int 2), some (.int 3)])]

/-- Further concrete dataframes for evaluation tests. -/
def exDf2 : DataFrame :=
  [("a", [some (.int 1), some (.int 2)]), ("b", [some (.int 10), some (.int 20)])]

def exDfStr : DataFrame :=
  [("a", [some (.str "x"), some (.str "y")]), ("b", [some (.str "u"), none])]

/-- `fill_null`'s eager validation passes: exactly one of value/strategy
is given, and a given strategy is forward or backward. -/
def fillNullValid (value : Option Val) (strategy : Option String) : Bool :=
  (value.isSome && strategy.isNone) ||
    (value.isNone && (strategy == some "forward" || strategy == some "backward"))

/-- Deferral property for a representative set of transformation methods:
each constructed node's stored call, applied to a namespace, is exactly
the original node's call composed with one backend operation — nothing is
applied until a namespace is supplied. -/
def DeferredOps {E S W : Type} (ns : Namespace E S W) (e : Expr E S W)
    (n : String) (d : DType) (x : Operand E S W) (v : Option Val)
    (s : Option String) (l : Option Int) : Prop :=
  (e.alias n)._call ns = ns.«alias» (e._call ns) n
  ∧ (e.cast d)._call ns = ns.cast (e._call ns) d
  ∧ (e.__add__ x)._call ns = ns.add (e._call ns) (extract_compliant ns x)
  ∧ (e.__lt__ x)._call ns = ns.lt (e._call ns) (extract_compliant ns x)
  ∧ (e.__eq__ x)._call ns = ns.eq (e._call ns) (extract_compliant ns x)
  ∧ e.fill_null v s l = Except.ok ⟨fun plx => plx.fill_null (e._call plx) v s l⟩

/-- C1: constructing a node stores its call unevaluated and every
transformation method (alias, cast, arithmetic, comparisons, fill_null
once its eager validation passes) returns a new node whose deferred call
is only applied when a namespace is supplied: applied to any namespace it
equals the predecessor's call composed with one backend operation, and
`fill_null` with valid arguments returns the deferred node without
raising. -/
theorem C1_construction_defers_evaluation {E S W : Type}
    (ns : Namespace E S W) (e : Expr E S W) (n : String) (d : DType)
    (x : Operand E S W) (v : Option Val) (s : Option String) (l : Option Int)
    (h : fillNullValid v s = true) :
    DeferredOps ns e n d x v s l := by
  refine ⟨rfl, rfl, rfl, rfl, rfl, ?_⟩
  cases v with
  | some v' =>
    cases s with
    | none => rfl
    | some str => simp [fillNullValid] at h
  | none =>
    cases s with
    | none => simp [fillNullValid] at h
    | some str =>
      have hstr : str = "forward" ∨ str = "backward" := by
        simpa [fillNullValid, beq_iff_eq] using h
      rcases hstr with h' | h' <;> subst h' <;> rfl

/-- Witness for C1 at a concrete namespace, node and argument set. -/
theorem C1_construction_defers_evaluation_witness :
    fillNullValid (some (.int 0)) none = true
    ∧ DeferredOps (toyNs exDf3) (col [.one "a"]) "x" .int64
        (.scalar (.int 1)) (some (.int 0)) none none :=
  ⟨by decide,
    C1_construction_defers_evaluation _ _ _ _ _ _ _ _ (by decide)⟩

/-- C2: the dispatch helper resolves an Expression Node by invoking its
stored call on the namespace, a realized Series by extracting its
underlying compliant series, and anything else unchanged as a scalar
literal. -/
theorem C2_extract_compliant_three_way_dispatch {E S W : Type}
    (plx : Namespace E S W) (e : Expr E S W) (s : Series S) (v : Val) :
    extract_compliant plx (.expr e) = .comp (e._call plx)
    ∧ extract_compliant plx (.series s) = .ser s._compliant_series
    ∧ extract_compliant plx (.scalar v) = .val v :=
  ⟨rfl, rfl, rfl⟩

/-- C3: against the conforming backend whose column `a` holds [1,2,3],
`when(col("a") < 3).then(5).otherwise(6)` evaluates to [5,5,6], and the
same chain without the otherwise call — the Then node used directly as an
Expression Node — evaluates to [5,5,null]. -/
theorem C3_when_then_otherwise_and_null_fallback :
    ((((when [.one (.expr ((col [.one "a"]).__lt__ (.scalar (.int 3))))]).«then»
        (.scalar (.int 5))).otherwise (.scalar (.int 6)))._call (toyNs exDf3)).vals
      = [some (.int 5), some (.int 5), some (.int 6)]
    ∧ (((when [.one (.expr ((col [.one "a"]).__lt__ (.scalar (.int 3))))]).«then»
        (.scalar (.int 5)))._call (toyNs exDf3)).vals
      = [some (.int 5), some (.int 5), none] := by
  constructor <;> decide

/-- C4: `fill_null` raises synchronously at construction exactly when both
value and strategy are given, neither is given, or the strategy is outside
forward/backward; with exactly one validly given it returns the deferred
node without raising. -/
theorem C4_fill_null_eager_validation {E S W : Type} (e : Expr E S W)
    (v : Val) (s : String) (l : Option Int) :
    e.fill_null (some v) (some s) l
      = .error (.valueError "cannot specify both `value` and `strategy`")
    ∧ e.fill_null none none l
      = .error (.valueError "must specify either a fill `value` or `strategy`")
    ∧ e.fill_null none (some s) l
      = (if s = "forward" ∨ s = "backward" then
          .ok ⟨fun plx => plx.fill_null (e._call plx) none (some s) l⟩
        else
          .error (.valueError ("strategy not supported: " ++ s)))
    ∧ e.fill_null (some v) none l
      = .ok ⟨fun plx => plx.fill_null (e._call plx) (some v) none l⟩ := by
  refine ⟨rfl, rfl, ?_, rfl⟩
  by_cases hf : s = "forward"
  · subst hf; simp [Expr.fill_null]
  · by_cases hb : s = "backward"
    · subst hb; simp [Expr.fill_null]
    · simp [Expr.fill_null, hf, hb, beq_iff_eq]

/-- C5: each of the six horizontal constructors raises a usage error on an
empty argument list, independent of any backend, and with at least one
expression returns the deferred node without raising; sum_horizontal on
two columns of the toy backend evaluates to their elementwise sum. -/
theorem C5_horizontal_constructors_require_an_expression {E S W : Type}
    (x : VarArg (Operand E S W)) (rest : List (VarArg (Operand E S W))) :
    sum_horizontal ([] : List (VarArg (Operand E S W)))
      = .error (.valueError "At least one expression must be passed to `sum_horizontal`")
    ∧ min_horizontal ([] : List (VarArg (Operand E S W)))
      = .error (.valueError "At least one expression must be passed to `min_horizontal`")
    ∧ max_horizontal ([] : List (VarArg (Operand E S W)))
      = .error (.valueError "At least one expression must be passed to `max_horizontal`")
    ∧ any_horizontal ([] : List (VarArg (Operand E S W)))
      = .error (.valueError "At least one expression must be passed to `any_horizontal`")
    ∧ all_horizontal ([] : List (VarArg (Operand E S W)))
      = .error (.valueError "At least one expression must be passed to `all_horizontal`")
    ∧ mean_horizontal ([] : List (VarArg (Operand E S W)))
      = .error (.valueError "At least one expression must be passed to `mean_horizontal`")
    ∧ sum_horizontal (x :: rest)
      = .ok ⟨fun plx => plx.sum_horizontal ((flatten (x :: rest)).map (extract_compliant plx))⟩
    ∧ min_horizontal (x :: rest)
      = .ok ⟨fun plx => plx.min_horizontal ((flatten (x :: rest)).map (extract_compliant plx))⟩
    ∧ max_horizontal (x :: rest)
      = .ok ⟨fun plx => plx.max_horizontal ((flatten (x :: rest)).map (extract_compliant plx))⟩
    ∧ any_horizontal (x :: rest)
      = .ok ⟨fun plx => plx.any_horizontal ((flatten (x :: rest)).map (extract_compliant plx))⟩
    ∧ all_horizontal (x :: rest)
      = .ok ⟨fun plx => plx.all_horizontal ((flatten (x :: rest)).map (extract_compliant plx))⟩
    ∧ mean_horizontal (x :: rest)
      = .ok ⟨fun plx => plx.mean_horizontal ((flatten (x :: rest)).map (extract_compliant plx))⟩
    ∧ (sum_horizontal [.one (.expr (col [.one "a"])), .one (.expr (col [.one "b"]))]).map
        (fun e => (e._call (toyNs exDf2)).vals)
      = .ok [some (.int 11), some (.int 22)] := by
  refine ⟨rfl, rfl, rfl, rfl, rfl, rfl, rfl, rfl, rfl, rfl, rfl, rfl, ?_⟩
  rfl

/-- C6 counterexample: the claim that `concat_str` fails immediately at
construction time with zero operands is false — called with an empty list
of expressions it returns a deferred node (no error), and the empty
operand list reaches the backend only at evaluation time. -/
theorem C6_counterexample_empty_concat_str_builds_a_node :
    (concat_str (.many ([] : List (Operand Col Col MaskW))) [] "" false).isOk = true
    ∧ (concat_str (.many ([] : List (Operand Col Col MaskW))) [] "" false).map
        (fun e => (e._call (toyNs exDf3)).vals)
      = .ok [] :=
  ⟨rfl, rfl⟩

/-- C6 amended: `concat_str` performs no construction-time arity check —
with any operand list, the empty one included, it returns a deferred node
without raising, whose call hands the resolved operands to the backend
only at evaluation time; on the toy backend, concatenating two string
columns with a separator yields the row-wise concatenation with null
propagation. -/
theorem C6_concat_str_defers_all_failure {E S W : Type}
    (exprs : VarArg (Operand E S W)) (more : List (Operand E S W))
    (sep : String) (ign : Bool) :
    (concat_str exprs more sep ign).isOk = true
    ∧ concat_str exprs more sep ign
      = .ok ⟨fun plx =>
          plx.concat_str ((flatten [exprs]).map (extract_compliant plx))
            (more.map (extract_compliant plx)) sep ign⟩
    ∧ (concat_str (.many [.expr (col [.one "a"]), .expr (col [.one "b"])])
        ([] : List (Operand Col Col MaskW)) " " false).map
        (fun e => (e._call (toyNs exDfStr)).vals)
      = .ok [some (.str "x u"), none] :=
  ⟨rfl, rfl, rfl⟩

/-- C7: `is_in` raises immediately at construction when its argument is a
string, a bytes value, or an Expression Node, and returns the deferred
node for a non-string iterable; membership of column `a` of the toy
backend in the literal list [1, 3] evaluates to [true, false, true]. -/
theorem C7_is_in_eager_operand_validation {E S W : Type} (e : Expr E S W)
    (s : String) (b : List Nat) (e2 : Expr E S W) (l : List Val) :
    e.is_in (.pstr s)
      = .error (.notImplementedError "Narwhals `is_in` doesn't accept expressions as an argument, as opposed to Polars. You should provide an iterable instead.")
    ∧ e.is_in (.pbytes b)
      = .error (.notImplementedError "Narwhals `is_in` doesn't accept expressions as an argument, as opposed to Polars. You should provide an iterable instead.")
    ∧ e.is_in (.pexpr e2)
      = .error (.notImplementedError "Narwhals `is_in` doesn't accept expressions as an argument, as opposed to Polars. You should provide an iterable instead.")
    ∧ e.is_in (.plist l) = .ok ⟨fun plx => plx.is_in (e._call plx) l⟩
    ∧ ((col [.one "a"] : Expr Col Col MaskW).is_in (.plist [.int 1, .int 3])).map
        (fun e => (e._call (toyNs exDf3)).vals)
      = .ok [some (.bool true), some (.bool false), some (.bool true)] :=
  ⟨rfl, rfl, rfl, rfl, rfl⟩

/-- C8: `replace_strict` given a mapping with `new` omitted unpacks it at
construction time into the mapping's keys and values before building the
deferred node, and raises a usage error immediately when `new` is omitted
while `old` is not a mapping. -/
theorem C8_replace_strict_unpacks_mapping_eagerly {E S W : Type}
    (e : Expr E S W) (ps : List (Val × Val)) (l : List Val)
    (rdt : Option DType) :
    e.replace_strict (.mapping ps) none rdt
      = .ok ⟨fun plx =>
          plx.replace_strict (e._call plx) (.seq (ps.map Prod.fst))
            (ps.map Prod.snd) rdt⟩
    ∧ e.replace_strict (.seq l) none rdt
      = .error (.typeError "`new` argument is required if `old` argument is not a Mapping type") :=
  ⟨rfl, rfl⟩

/-- C9: on every conforming backend (one whose alias operation sets the
output name to the given name and leaves the values unchanged), evaluating
`e.alias(n1).alias(n2)` yields column name exactly `n2` with the values of
`e`, and `e.alias(n1).alias(n1)` is observably equivalent to
`e.alias(n1)`. -/
theorem C9_last_alias_wins {E S W : Type} (ns : Namespace E S W)
    (nameOf : E → String) (valsOf : E → List (Option Val))
    (hname : ∀ x n, nameOf (ns.«alias» x n) = n)
    (hvals : ∀ x n, valsOf (ns.«alias» x n) = valsOf x)
    (e : Expr E S W) (n1 n2 : String) :
    nameOf (((e.alias n1).alias n2)._call ns) = n2
    ∧ valsOf (((e.alias n1).alias n2)._call ns) = valsOf (e._call ns)
    ∧ nameOf (((e.alias n1).alias n1)._call ns) = nameOf ((e.alias n1)._call ns)
    ∧ valsOf (((e.alias n1).alias n1)._call ns) = valsOf ((e.alias n1)._call ns) := by
  refine ⟨hname _ _, ?_, ?_, ?_⟩
  · show valsOf (ns.«alias» (ns.«alias» (e._call ns) n1) n2) = valsOf (e._call ns)
    rw [hvals, hvals]
  · show nameOf (ns.«alias» (ns.«alias» (e._call ns) n1) n1)
      = nameOf (ns.«alias» (e._call ns) n1)
    rw [hname, hname]
  · show valsOf (ns.«alias» (ns.«alias» (e._call ns) n1) n1)
      = valsOf (ns.«alias» (e._call ns) n1)
    rw [hvals]

/-- Witness for C9 on the toy backend, whose alias operation satisfies the
conformance laws. -/
theorem C9_last_alias_wins_witness :
    ((((col [.one "a"] : Expr Col Col MaskW).alias "x").alias "y")._call
        (toyNs exDf3)).name = "y"
    ∧ ((((col [.one "a"] : Expr Col Col MaskW).alias "x").alias "y")._call
        (toyNs exDf3)).vals
      = ((col [.one "a"] : Expr Col Col MaskW)._call (toyNs exDf3)).vals
    ∧ ((((col [.one "a"] : Expr Col Col MaskW).alias "x").alias "x")._call
        (toyNs exDf3)).name
      = (((col [.one "a"] : Expr Col Col MaskW).alias "x")._call (toyNs exDf3)).name
    ∧ ((((col [.one "a"] : Expr Col Col MaskW).alias "x").alias "x")._call
        (toyNs exDf3)).vals
      = (((col [.one "a"] : Expr Col Col MaskW).alias "x")._call (toyNs exDf3)).vals :=
  C9_last_alias_wins (toyNs exDf3) Col.name Col.vals
    (fun _ _ => rfl) (fun _ _ => rfl) (col [.one "a"]) "x" "y"

/-- C10: the comparison operators on an Expression Node never compare the
nodes themselves: each returns a new deferred node whose call delegates
the comparison to the backend expression after resolving the operand
through the dispatch helper — in particular comparing two nodes builds a
deferred elementwise comparison; on the toy backend, `col("a") == 2` over
[1,2,3] evaluates to [false, true, false]. -/
theorem C10_comparisons_build_deferred_nodes {E S W : Type}
    (plx : Namespace E S W) (e e2 : Expr E S W) (x : Operand E S W) :
    (e.__eq__ x)._call plx = plx.eq (e._call plx) (extract_compliant plx x)
    ∧ (e.__ne__ x)._call plx = plx.ne (e._call plx) (extract_compliant plx x)
    ∧ (e.__lt__ x)._call plx = plx.lt (e._call plx) (extract_compliant plx x)
    ∧ (e.__le__ x)._call plx = plx.le (e._call plx) (extract_compliant plx x)
    ∧ (e.__gt__ x)._call plx = plx.gt (e._call plx) (extract_compliant plx x)
    ∧ (e.__ge__ x)._call plx = plx.ge (e._call plx) (extract_compliant plx x)
    ∧ (e.__eq__ (.expr e2))._call plx = plx.eq (e._call plx) (.comp (e2._call plx))
    ∧ (((col [.one "a"] : Expr Col Col MaskW).__eq__ (.scalar (.int 2)))._call
        (toyNs exDf3)).vals
      = [some (.bool false), some (.bool true), some (.bool false)] :=
  ⟨rfl, rfl, rfl, rfl, rfl, rfl, rfl, by decide⟩

end Narwhals
